import Mathlib

/-! # Firehose scrapers: embedding and verification

A shallow embedding of the ingestion/deduplication core of the firehose
scrapers (`src/scrapers/db.py`, `american_presidency.py`, `truth_social.py`,
`rev_transcripts.py`), together with proofs about the data-model and
component contracts (idempotent insert, derived counts, transport
equivalence, date fallback, empty-content rejection, batch error handling,
dedup short-circuit, page/item caps, listing-URL construction).

External collaborators (HTTP transport, the HTML parser, `datetime`
parsing routines of the python standard library, and the remote write
endpoint) are represented at their interface boundary: either as function
parameters of the embedded operations or, for the remote endpoint, as a
definition modelled from the spec.
-/

namespace Firehose

/-- JSON-like scalar values appearing in the open `metadata` mapping. -/
inductive MetaValue where
  | str (s : String)
  | num (n : Int)
  | bool (b : Bool)
deriving DecidableEq, Repr

/-- The open, string-keyed metadata mapping (python `Dict[str, Any]`). -/
abbrev Metadata := List (String × MetaValue)

/-- Accumulating scan behind `pySplitWs`: `acc` holds the reversed
characters of the word in progress. -/
def pySplitWsAux : List Char → List Char → List String
  | [], acc => if acc.isEmpty then [] else [String.mk acc.reverse]
  | c :: rest, acc =>
    if c.isWhitespace then
      if acc.isEmpty then pySplitWsAux rest []
      else String.mk acc.reverse :: pySplitWsAux rest []
    else pySplitWsAux rest (c :: acc)

/-- Python `text_content.split()`: splitting on whitespace with no
argument discards empty pieces, so the result lists the maximal runs of
non-whitespace characters. -/
def pySplitWs (s : String) : List String :=
  pySplitWsAux s.toList []

/-- Python `str.strip()`: remove leading and trailing whitespace. -/
def pyStrip (s : String) : String :=
  String.mk
    (((s.toList.dropWhile Char.isWhitespace).reverse.dropWhile
      Char.isWhitespace).reverse)

/-- Accumulating scan behind `pySplitSlash`. -/
def pySplitSlashAux : List Char → List Char → List String
  | [], acc => [String.mk acc.reverse]
  | c :: rest, acc =>
    if c = '/' then String.mk acc.reverse :: pySplitSlashAux rest []
    else pySplitSlashAux rest (c :: acc)

/-- Python `url.split("/")`: split at every slash, keeping empty pieces
(the result is never the empty list). -/
def pySplitSlash (s : String) : List String :=
  pySplitSlashAux s.toList []

/-- `word_count = len(text_content.split())` (db.py line 57). -/
def wordCount (s : String) : Nat :=
  (pySplitWs s).length

/-- One row of the `entries` relation (logical layout, spec section 6). -/
structure EntryRow where
  id : Nat
  external_id : Option String
  timestamp : Nat
  source : String
  source_url : Option String
  entry_type : Option String
  venue : Option String
  title : Option String
  text_content : String
  character_count : Nat
  word_count : Nat
  metadata : Option Metadata
deriving DecidableEq, Repr

/-- The persistent relational store: the rows plus the next serial id. -/
structure EntriesTable where
  rows : List EntryRow
  nextId : Nat
deriving DecidableEq, Repr

/-- The keyword arguments of `EntryDB.insert_entry` (db.py lines 39-50).
`external_id` and the other optional columns default to `None`. -/
structure InsertArgs where
  timestamp : Nat
  source : String
  text_content : String
  external_id : Option String := none
  source_url : Option String := none
  entry_type : Option String := none
  venue : Option String := none
  title : Option String := none
  metadata : Option Metadata := none
deriving DecidableEq, Repr

/-- Postgres `ON CONFLICT (external_id)` semantics: a NULL key never
conflicts (unique indexes treat NULLs as distinct), a non-NULL key
conflicts exactly when a row with the same `external_id` is present. -/
def conflictsOn (store : EntriesTable) (ext : Option String) : Bool :=
  match ext with
  | none => false
  | some k => store.rows.any (fun r => r.external_id == some k)

/-- `json.dumps(metadata) if metadata else None` (db.py line 128): a falsy
metadata value (absent, or the empty mapping) is stored as NULL. -/
def metadataToStore (m : Option Metadata) : Option Metadata :=
  match m with
  | none => none
  | some l => if l.isEmpty then none else some l

/-- The row written by a successful `_insert_via_db` (db.py lines
106-130): the insert arguments plus the caller-computed counts, with the
fresh serial id. -/
def dbRowOf (store : EntriesTable) (a : InsertArgs)
    (word_count character_count : Nat) : EntryRow :=
  { id := store.nextId,
    external_id := a.external_id,
    timestamp := a.timestamp,
    source := a.source,
    source_url := a.source_url,
    entry_type := a.entry_type,
    venue := a.venue,
    title := a.title,
    text_content := a.text_content,
    character_count := character_count,
    word_count := word_count,
    metadata := metadataToStore a.metadata }

/-- `EntryDB._insert_via_db` (db.py lines 89-136): a single transactional
`INSERT ... ON CONFLICT (external_id) DO NOTHING RETURNING id`.  On
conflict no row is written and no id is returned; otherwise the new row is
written with the caller-computed counts and the fresh id is returned. -/
def insert_via_db (store : EntriesTable) (a : InsertArgs)
    (word_count character_count : Nat) : EntriesTable × Option Nat :=
  if conflictsOn store a.external_id then (store, none)
  else
    ({ rows := store.rows ++ [dbRowOf store a word_count character_count],
       nextId := store.nextId + 1 },
     some store.nextId)

/-- The JSON body posted by `EntryDB._insert_via_api` (db.py lines
157-167).  Note that it has no field for `word_count` or
`character_count`. -/
structure ApiPayload where
  timestamp : Nat
  source : String
  textContent : String
  externalId : Option String
  sourceUrl : Option String
  entryType : Option String
  venue : Option String
  title : Option String
  metadata : Option Metadata
deriving DecidableEq, Repr

/-- Serialization of the insert arguments into the API payload
(db.py lines 157-167). -/
def api_payload_of (a : InsertArgs) : ApiPayload :=
  { timestamp := a.timestamp,
    source := a.source,
    textContent := a.text_content,
    externalId := a.external_id,
    sourceUrl := a.source_url,
    entryType := a.entry_type,
    venue := a.venue,
    title := a.title,
    metadata := a.metadata }

/-- The response body of the remote write endpoint, as read by
`_insert_via_api` (db.py lines 172-175): a `duplicate` flag and an
optional `entry.id`. -/
structure ApiResponse where
  duplicate : Bool
  entryId : Option Nat
deriving DecidableEq, Repr

/-- Modelled from the spec: the remote write endpoint that
`_insert_via_api` posts to is not under `src/` (only its caller is).  Per
spec sections 3 and 4.3 it performs the idempotent insert keyed on
`external_id` (the `duplicate` flag in the response communicates the
no-op case), recomputes `word_count` and `character_count` from the
transmitted text at insert time, and stores the metadata mapping opaquely
(an empty mapping stored as absent, matching the direct transport's
normalization of falsy metadata). -/
def api_server_insert (store : EntriesTable) (p : ApiPayload) :
    EntriesTable × ApiResponse :=
  if conflictsOn store p.externalId then
    (store, { duplicate := true, entryId := none })
  else
    ({ rows := store.rows ++ [{
         id := store.nextId,
         external_id := p.externalId,
         timestamp := p.timestamp,
         source := p.source,
         source_url := p.sourceUrl,
         entry_type := p.entryType,
         venue := p.venue,
         title := p.title,
         text_content := p.textContent,
         character_count := p.textContent.length,
         word_count := wordCount p.textContent,
         metadata := metadataToStore p.metadata }],
       nextId := store.nextId + 1 },
     { duplicate := false, entryId := some store.nextId })

/-- `EntryDB._insert_via_api` (db.py lines 138-175) on its success path
(a 2xx response; a failing response raises and is the concern of the
error-handling claims).  The received `word_count`/`character_count`
arguments (db.py lines 149-150) do not appear in the transmitted payload. -/
def insert_via_api (store : EntriesTable) (a : InsertArgs)
    (word_count character_count : Nat) : EntriesTable × Option Nat :=
  let p := api_payload_of a
  let res := api_server_insert store p
  if res.2.duplicate then (res.1, none) else (res.1, res.2.entryId)

/-- `EntryDB.insert_entry` (db.py lines 39-87): recomputes the derived
counts from `text_content`, then dispatches on the transport flag chosen
at construction time (`use_api`). -/
def insert_entry (useApi : Bool) (store : EntriesTable) (a : InsertArgs) :
    EntriesTable × Option Nat :=
  let word_count := wordCount a.text_content
  let character_count := a.text_content.length
  if useApi then insert_via_api store a word_count character_count
  else insert_via_db store a word_count character_count

/-- The column list of the SQL INSERT executed by `_insert_via_db`
(db.py lines 108-112). -/
def dbInsertColumns : List String :=
  ["external_id", "timestamp", "source", "source_url",
   "entry_type", "venue", "title", "text_content",
   "character_count", "word_count", "metadata"]

/-- The keys of the JSON payload built by `_insert_via_api`
(db.py lines 157-167). -/
def apiPayloadKeys : List String :=
  ["timestamp", "source", "textContent", "externalId", "sourceUrl",
   "entryType", "venue", "title", "metadata"]

/-- The Entry-model field named by each camelCase payload key. -/
def apiKeyToField (k : String) : String :=
  if k = "textContent" then "text_content"
  else if k = "externalId" then "external_id"
  else if k = "sourceUrl" then "source_url"
  else if k = "entryType" then "entry_type"
  else k

/-- The Entry-model fields transmitted by the remote-write transport. -/
def apiTransmittedFields : List String :=
  apiPayloadKeys.map apiKeyToField

/-- Number of rows of the store carrying a given non-null external id. -/
def countKey (store : EntriesTable) (k : String) : Nat :=
  (store.rows.filter (fun r => r.external_id == some k)).length

/-- A stored row whose derived counts agree with its stored text. -/
def countsConsistent (r : EntryRow) : Prop :=
  r.word_count = wordCount r.text_content ∧
  r.character_count = r.text_content.length

lemma insert_via_db_dup (store : EntriesTable) (a : InsertArgs)
    (wc cc : Nat) (h : conflictsOn store a.external_id = true) :
    insert_via_db store a wc cc = (store, none) := by
  simp [insert_via_db, h]

lemma insert_via_db_new (store : EntriesTable) (a : InsertArgs)
    (wc cc : Nat) (h : conflictsOn store a.external_id = false) :
    insert_via_db store a wc cc =
      ({ rows := store.rows ++ [dbRowOf store a wc cc],
          nextId := store.nextId + 1 },
       some store.nextId) := by
  simp [insert_via_db, h]

/-- The two transports of `insert_entry` agree: the deduplication test,
the stored row (counts recomputed server-side coincide with the ones the
direct path computes locally) and the returned id are identical. -/
lemma insert_entry_transport_agnostic (store : EntriesTable) (a : InsertArgs) :
    insert_entry true store a = insert_entry false store a := by
  unfold insert_entry insert_via_api insert_via_db api_server_insert api_payload_of
  cases h : conflictsOn store a.external_id <;> simp [h, dbRowOf]

/-- Either transport of `insert_entry` computes the direct-database
insert with the recomputed counts. -/
lemma insert_entry_eq_db (useApi : Bool) (store : EntriesTable) (a : InsertArgs) :
    insert_entry useApi store a
      = insert_via_db store a (wordCount a.text_content) a.text_content.length := by
  cases useApi
  · rfl
  · exact insert_entry_transport_agnostic store a

lemma countKey_append (rows : List EntryRow) (row : EntryRow) (n : Nat) (k : String) :
    countKey ⟨rows ++ [row], n⟩ k
      = countKey ⟨rows, n⟩ k + (if row.external_id = some k then 1 else 0) := by
  simp [countKey, List.filter_append]
  split <;> simp_all

lemma rows_filter_nil_of_fresh (store : EntriesTable) (k : String)
    (h : conflictsOn store (some k) = false) :
    store.rows.filter (fun r => r.external_id == some k) = [] := by
  simp [conflictsOn] at h
  simp [List.filter_eq_nil_iff]
  intro r hr
  simpa using h r hr

lemma conflictsOn_after_insert (store : EntriesTable) (a : InsertArgs)
    (k : String) (ha : a.external_id = some k)
    (h : conflictsOn store (some k) = false) :
    conflictsOn (insert_via_db store a (wordCount a.text_content)
      a.text_content.length).1 (some k) = true := by
  rw [insert_via_db_new store a _ _ (ha ▸ h)]
  simp [conflictsOn, dbRowOf, ha]

/-- C1: a second `insert_entry` call with an `external_id` already in the
store is a no-op on the store, returns `None` ("no new entry"), and
leaves exactly one row for that `external_id`; this holds for the
direct-database transport, the API transport, and any mix of the two. -/
theorem insert_same_external_id_twice_idempotent
    (u1 u2 : Bool) (store : EntriesTable) (a a' : InsertArgs) (k : String)
    (ha : a.external_id = some k) (ha' : a'.external_id = some k)
    (hfresh : conflictsOn store (some k) = false) :
    (insert_entry u2 (insert_entry u1 store a).1 a').2 = none ∧
    (insert_entry u2 (insert_entry u1 store a).1 a').1
      = (insert_entry u1 store a).1 ∧
    countKey (insert_entry u2 (insert_entry u1 store a).1 a').1 k = 1 := by
  have h1 := insert_entry_eq_db u1 store a
  have hconf : conflictsOn (insert_entry u1 store a).1 a'.external_id = true := by
    rw [h1, ha']
    exact conflictsOn_after_insert store a k ha hfresh
  have h2 : insert_entry u2 (insert_entry u1 store a).1 a'
      = ((insert_entry u1 store a).1, none) := by
    rw [insert_entry_eq_db u2]
    exact insert_via_db_dup _ _ _ _ hconf
  refine ⟨by rw [h2], by rw [h2], ?_⟩
  rw [h2, h1, insert_via_db_new store a _ _ (ha ▸ hfresh)]
  simp [countKey, List.filter_append, rows_filter_nil_of_fresh store k hfresh,
    dbRowOf, ha]

/-- C1 witness: a concrete double insert (direct then API, differing
payloads) on the empty store. -/
theorem insert_same_external_id_twice_idempotent_witness :
    (insert_entry true (insert_entry false ⟨[], 0⟩
        { timestamp := 10, source := "speech", text_content := "hello world",
          external_id := some "app_123456" }).1
        { timestamp := 11, source := "speech", text_content := "other text",
          external_id := some "app_123456" }).2 = none ∧
    (insert_entry true (insert_entry false ⟨[], 0⟩
        { timestamp := 10, source := "speech", text_content := "hello world",
          external_id := some "app_123456" }).1
        { timestamp := 11, source := "speech", text_content := "other text",
          external_id := some "app_123456" }).1
      = (insert_entry false ⟨[], 0⟩
        { timestamp := 10, source := "speech", text_content := "hello world",
          external_id := some "app_123456" }).1 ∧
    countKey (insert_entry true (insert_entry false ⟨[], 0⟩
        { timestamp := 10, source := "speech", text_content := "hello world",
          external_id := some "app_123456" }).1
        { timestamp := 11, source := "speech", text_content := "other text",
          external_id := some "app_123456" }).1 "app_123456" = 1 :=
  insert_same_external_id_twice_idempotent false true ⟨[], 0⟩
    { timestamp := 10, source := "speech", text_content := "hello world",
      external_id := some "app_123456" }
    { timestamp := 11, source := "speech", text_content := "other text",
      external_id := some "app_123456" }
    "app_123456" rfl rfl (by decide)

/-- C2: under either transport, `insert_entry` preserves the invariant
that every stored row's `word_count` is the whitespace-token count of its
`text_content` and its `character_count` is its length; moreover, when an
id is returned, the row carrying it stores the submitted text with both
counts recomputed from it (the adapter supplies no counts: `InsertArgs`
has no count field). -/
theorem stored_counts_recomputed (useApi : Bool) (store : EntriesTable)
    (a : InsertArgs) (hinv : ∀ r ∈ store.rows, countsConsistent r) :
    (∀ r ∈ (insert_entry useApi store a).1.rows, countsConsistent r) ∧
    (∀ i, (insert_entry useApi store a).2 = some i →
      ∃ r ∈ (insert_entry useApi store a).1.rows,
        r.id = i ∧ r.text_content = a.text_content ∧
        r.word_count = wordCount a.text_content ∧
        r.character_count = a.text_content.length) := by
  rw [insert_entry_eq_db]
  cases h : conflictsOn store a.external_id
  · rw [insert_via_db_new store a _ _ h]
    constructor
    · intro r hr
      simp at hr
      rcases hr with hr | hr
      · exact hinv r hr
      · subst hr
        exact ⟨rfl, rfl⟩
    · intro i hi
      simp at hi
      subst hi
      exact ⟨dbRowOf store a (wordCount a.text_content) a.text_content.length,
        by simp, rfl, rfl, rfl, rfl⟩
  · rw [insert_via_db_dup store a _ _ h]
    exact ⟨hinv, by intro i hi; simp at hi⟩

/-- C2 witness: a concrete insert on the empty store via the API
transport yields a row with recomputed counts. -/
theorem stored_counts_recomputed_witness :
    ∃ r ∈ (insert_entry true ⟨[], 0⟩
        { timestamp := 5, source := "transcript",
          text_content := "  two words  ",
          external_id := some "rev_slug" }).1.rows,
      r.id = 0 ∧ r.text_content = "  two words  " ∧
      r.word_count = wordCount "  two words  " ∧
      r.character_count = ("  two words  " : String).length :=
  (stored_counts_recomputed true ⟨[], 0⟩
    { timestamp := 5, source := "transcript",
      text_content := "  two words  ", external_id := some "rev_slug" }
    (by intro r hr; simp at hr)).2 0 (by decide)

/-- C3 counterexample: the two transports do not transmit the same Entry
fields to the persistence layer — the SQL INSERT of the direct transport
carries the derived `word_count` and `character_count` columns while the
API payload of the remote transport has no field for either. -/
theorem transports_transmit_different_fields :
    ("word_count" ∈ dbInsertColumns ∧
      "word_count" ∉ apiTransmittedFields) ∧
    ("character_count" ∈ dbInsertColumns ∧
      "character_count" ∉ apiTransmittedFields) := by
  decide

/-- C3 (amended): the two transports are equivalent in caller-visible
result and in the stored rows — the same dedup decision, the same new id
on first insert and `None` on duplicate, and identical rows because the
remote endpoint recomputes the counts the payload omits — but the
transmitted field sets differ: only the direct transport transmits the
derived counts. -/
theorem transports_caller_equivalent (store : EntriesTable) (a : InsertArgs) :
    insert_entry true store a = insert_entry false store a :=
  insert_entry_transport_agnostic store a

/-- C9: `insert_entry` accepts a missing `external_id` (the field
defaults to `None`), and an insert with a NULL `external_id` via the
direct-database path never triggers the duplicate no-op: it always
appends a fresh row and returns its new id, whatever the store already
contains. -/
theorem null_external_id_always_inserts (store : EntriesTable)
    (a : InsertArgs) (t : Nat) (s c : String)
    (h : a.external_id = none) :
    (insert_entry false store a).2 = some store.nextId ∧
    (insert_entry false store a).1.rows.length = store.rows.length + 1 ∧
    ({ timestamp := t, source := s, text_content := c } : InsertArgs).external_id
      = none := by
  have hc : conflictsOn store a.external_id = false := by
    rw [h]; rfl
  rw [insert_entry_eq_db, insert_via_db_new store a _ _ hc]
  simp

/-- C9 witness: inserting without an `external_id` into a store that
already holds a NULL-keyed row still creates a new row. -/
theorem null_external_id_always_inserts_witness :
    (insert_entry false
      ⟨[{ id := 0, external_id := none, timestamp := 0, source := "speech",
          source_url := none, entry_type := none, venue := none,
          title := none, text_content := "old", character_count := 3,
          word_count := 1, metadata := none }], 1⟩
      { timestamp := 2, source := "speech", text_content := "new text" }).2
      = some 1 ∧
    (insert_entry false
      ⟨[{ id := 0, external_id := none, timestamp := 0, source := "speech",
          source_url := none, entry_type := none, venue := none,
          title := none, text_content := "old", character_count := 3,
          word_count := 1, metadata := none }], 1⟩
      { timestamp := 2, source := "speech", text_content := "new text" }).1.rows.length
      = 1 + 1 ∧
    ({ timestamp := 0, source := "s", text_content := "t" } : InsertArgs).external_id
      = none :=
  null_external_id_always_inserts
    ⟨[{ id := 0, external_id := none, timestamp := 0, source := "speech",
        source_url := none, entry_type := none, venue := none,
        title := none, text_content := "old", character_count := 3,
        word_count := 1, metadata := none }], 1⟩
    { timestamp := 2, source := "speech", text_content := "new text" }
    0 "s" "t" rfl

/-! ## American Presidency Project scraper (american_presidency.py) -/

def AMERICAN_PRESIDENCY_BASE_URL : String := "https://www.presidency.ucsb.edu"

/-- `AmericanPresidencyScraper.CATEGORIES` (lines 29-36): category slug to
entry type. -/
def CATEGORIES : List (String × String) :=
  [("spoken-addresses-and-remarks", "speech"),
   ("press-conferences", "press_conference"),
   ("statements", "statement"),
   ("executive-orders", "executive_order"),
   ("proclamations", "proclamation"),
   ("presidential-memoranda", "memorandum")]

/-- The listing URL built by `_scrape_document_list` (lines 99-104): the
category path, then `?page=N` only for pages greater than 0, then the
president filter always appended with `&`. -/
def scrape_document_list_url (category : String) (page : Nat)
    (president : String) : String :=
  let url := AMERICAN_PRESIDENCY_BASE_URL ++ "/documents/app-categories/" ++ category
  let url := if page > 0 then url ++ "?page=" ++ toString page else url
  url ++ "&field_docs_person_target_id_1=" ++ president

/-- The ordered date formats `_parse_date` tries (line 78). -/
def apDateFormats : List String := ["%B %d, %Y", "%b %d, %Y", "%Y-%m-%d"]

/-- `AmericanPresidencyScraper._parse_date` (lines 67-85), parameterized
over python `datetime.strptime` (format and stripped string; `none` means
it raised `ValueError`): the first format that parses wins, otherwise
`None`. -/
def ap_parse_date (strptime : String → String → Option Nat)
    (date_str : String) : Option Nat :=
  apDateFormats.findSome? (fun fmt => strptime fmt (pyStrip date_str))

/-- `re.search(r"/documents/(\d+)", url)` group 1 (line 162): scanning
left to right, the first position where `/documents/` is followed by at
least one digit yields the maximal digit run after it. -/
def searchDocumentsId : List Char → Option String
  | [] => none
  | c :: rest =>
    if List.isPrefixOf "/documents/".toList (c :: rest) then
      let ds := ((c :: rest).drop 11).takeWhile Char.isDigit
      if ds.isEmpty then searchDocumentsId rest else some (String.mk ds)
    else searchDocumentsId rest

/-- BeautifulSoup `get_text(separator=sep, strip=True)` over an element's
text segments: each segment is stripped of surrounding whitespace, empty
segments are dropped, and the remainder is joined with the separator. -/
def getTextSegments (sep : String) (segs : List String) : String :=
  String.intercalate sep ((segs.map pyStrip).filter (fun t => t ≠ ""))

/-- The selector results on one document detail page, as handed over by
the external HTML parser (`none` = the selector matched nothing).  The
title/date/location fields hold the `get_text(strip=True)` results; the
mandatory content container is kept as its raw text segments so that the
stripping performed by `get_text` stays visible. -/
structure APPage where
  titleText : Option String
  dateText : Option String
  contentSegs : Option (List String)
  locationText : Option String
deriving DecidableEq, Repr

/-- The parsed-document record `_scrape_document` returns (lines
169-181); `entry_type` is set later by `scrape_category` (line 224). -/
structure APDoc where
  external_id : String
  timestamp : Nat
  source : String
  source_url : String
  title : String
  text_content : String
  venue : Option String
  entry_type : Option String
  metadata : Metadata
deriving DecidableEq, Repr

/-- The document record `_scrape_document` builds (lines 169-181): the
document id is the digit run after `/documents/` in the URL, else the
last path component; title, venue and the raw date string come from the
page selectors, the `metadata` retains the president slug and the raw
`date_str`. -/
def apDocOf (president url : String) (page : APPage) (segs : List String)
    (ts : Nat) : APDoc :=
  { external_id := "app_" ++ ((searchDocumentsId url.toList).getD
      ((pySplitSlash url).getLastD "")),
    timestamp := ts,
    source := "speech",
    source_url := url,
    title := page.titleText.getD "",
    text_content := getTextSegments "\n" segs,
    venue := page.locationText,
    entry_type := none,
    metadata := [("president", MetaValue.str president),
                 ("date_str", MetaValue.str (page.dateText.getD ""))] }

/-- `AmericanPresidencyScraper._scrape_document` (lines 129-184): reject
when the content container is absent or its text is empty; otherwise
build the document record, with the timestamp falling back to "now" when
no date format parses. -/
def scrape_document (strptime : String → String → Option Nat) (now : Nat)
    (president : String) (url : String) (page : APPage) : Option APDoc :=
  let timestamp := ap_parse_date strptime (page.dateText.getD "")
  match page.contentSegs with
  | none => none
  | some segs =>
    if getTextSegments "\n" segs = "" then none
    else some (apDocOf president url page segs (timestamp.getD now))

/-- A lightweight listing item (url, title, raw date string) as parsed by
`_scrape_document_list` (lines 117-121). -/
structure DocMeta where
  url : String
  title : String
  date_str : String
deriving DecidableEq, Repr

/-- The external collaborators of one `scrape_category` run:
`listings page` is the result of `_scrape_document_list` for that page,
`details url` the result of `_scrape_document url`, and `known` is
`db.entry_exists`. -/
structure APEnv where
  listings : Nat → List DocMeta
  details : String → Option APDoc
  known : String → Bool

/-- The pre-fetch dedup decision of `scrape_category` (lines 214-219):
skip the item when the id derived from its listing URL by the
`/documents/(digits)` pattern is already known; when the pattern does
not match, no database check happens and the item is not skipped. -/
def apSkipItem (env : APEnv) (url : String) : Bool :=
  match searchDocumentsId url.toList with
  | some did => env.known ("app_" ++ did)
  | none => false

/-- The inner loop of `scrape_category` (lines 210-226) over one listing
page: stop at the document cap, skip an item (without fetching) when the
id derived from its listing URL is already known, otherwise fetch the
detail page (the second component logs the fetched URLs) and accumulate
the parsed document with its entry type set. -/
def scrape_category_items (env : APEnv) (entryType : String) (maxDocs : Nat) :
    List DocMeta → List APDoc → List String → List APDoc × List String
  | [], docs, fetched => (docs, fetched)
  | m :: rest, docs, fetched =>
    if maxDocs ≤ docs.length then (docs, fetched)
    else
      if apSkipItem env m.url then
        scrape_category_items env entryType maxDocs rest docs fetched
      else
        match env.details m.url with
        | some doc =>
          scrape_category_items env entryType maxDocs rest
            (docs ++ [{ doc with entry_type := some entryType }])
            (fetched ++ [m.url])
        | none =>
          scrape_category_items env entryType maxDocs rest docs
            (fetched ++ [m.url])

/-- The outer loop of `scrape_category` (lines 202-228): stop at the
document cap, fetch the listing for each page in turn (the third
component logs the pages whose listing was fetched), and terminate the
run on an empty listing. -/
def scrape_category_pages (env : APEnv) (entryType : String) (maxDocs : Nat) :
    List Nat → List APDoc → List String → List Nat →
    List APDoc × List String × List Nat
  | [], docs, fetched, listed => (docs, fetched, listed)
  | p :: ps, docs, fetched, listed =>
    if maxDocs ≤ docs.length then (docs, fetched, listed)
    else
      let dl := env.listings p
      if dl.isEmpty then (docs, fetched, listed ++ [p])
      else
        let step := scrape_category_items env entryType maxDocs dl docs fetched
        scrape_category_pages env entryType maxDocs ps step.1 step.2
          (listed ++ [p])

/-- `AmericanPresidencyScraper.scrape_category` (lines 186-228): pages
`0 .. max_pages - 1`, entry type looked up in `CATEGORIES` with default
`"speech"`. -/
def scrape_category (env : APEnv) (category : String)
    (maxPages maxDocs : Nat) : List APDoc × List String × List Nat :=
  let entryType := (CATEGORIES.lookup category).getD "speech"
  scrape_category_pages env entryType maxDocs (List.range maxPages) [] [] []

/-- The `insert_entry` keyword arguments `save_documents` builds for one
document (lines 241-251). -/
def saveArgsOf (doc : APDoc) : InsertArgs :=
  { external_id := some doc.external_id,
    timestamp := doc.timestamp,
    source := doc.source,
    source_url := some doc.source_url,
    entry_type := doc.entry_type,
    venue := doc.venue,
    title := some doc.title,
    text_content := doc.text_content,
    metadata := some doc.metadata }

/-- `AmericanPresidencyScraper.save_documents` (lines 230-255),
parameterized over the possibly-raising `insert_entry` call
(`Except.error` represents a raised persistence exception).  The loop
body has no handler, so an error propagates out of the whole loop; the
first component logs the insert calls actually made, the second is the
outcome (the aggregate saved count, or the propagated error). -/
def save_documents (ins : InsertArgs → Except String (Option Nat)) :
    List APDoc → List InsertArgs × Except String Nat
  | [] => ([], Except.ok 0)
  | doc :: rest =>
    match ins (saveArgsOf doc) with
    | Except.error e => ([saveArgsOf doc], Except.error e)
    | Except.ok r =>
      let step := save_documents ins rest
      (saveArgsOf doc :: step.1,
       match step.2 with
       | Except.ok n => Except.ok ((if r.isSome then 1 else 0) + n)
       | Except.error e => Except.error e)

/-! ## Truth Social scraper (truth_social.py) -/

def TRUTH_SOCIAL_BASE_URL : String := "https://truthsocial.com"

/-- The fields `_parse_post` reads out of one raw API post
(truth_social.py lines 69-96).  `is_reblog` stands for
`post_data.get("reblog") is not None`; the count fields carry the values
`post_data.get(..., 0)` returns. -/
structure TruthPost where
  id : Option String
  content : String
  created_at : Option String
  reblogs_count : Int
  favourites_count : Int
  replies_count : Int
  is_reblog : Bool
deriving DecidableEq, Repr

/-- The shape of a parsed Truth Social post (lines 84-98). -/
structure TruthParsed where
  external_id : String
  timestamp : Nat
  source : String
  source_url : String
  entry_type : String
  text_content : String
  metadata : Metadata
deriving DecidableEq, Repr

/-- Python f-string rendering of `post_data.get('id')` inside the source
URL (line 88): `None` prints as `"None"`. -/
def optIdStr (o : Option String) : String :=
  match o with
  | some s => s
  | none => "None"

/-- The parsed-post record `_parse_post` returns (lines 84-98) for a
given final content string and timestamp.  Its metadata holds the account
and engagement counters — no date field. -/
def truthParsedOf (account : String) (post : TruthPost) (content : String)
    (t : Nat) : TruthParsed :=
  { external_id := "truth_" ++ post.id.getD "",
    timestamp := t,
    source := "truth_social",
    source_url := TRUTH_SOCIAL_BASE_URL ++ "/@" ++ account ++ "/posts/"
      ++ optIdStr post.id,
    entry_type := "post",
    text_content := content,
    metadata := [("account", MetaValue.str account),
                 ("reblogs_count", MetaValue.num post.reblogs_count),
                 ("favourites_count", MetaValue.num post.favourites_count),
                 ("replies_count", MetaValue.num post.replies_count),
                 ("is_reblog", MetaValue.bool post.is_reblog)] }

/-- The content normalization of `_parse_post` (lines 69-72): a truthy
content string goes through BeautifulSoup `get_text`, a falsy one stays
as is. -/
def truthContent (getText : String → String) (post : TruthPost) : String :=
  if post.content ≠ "" then getText post.content else post.content

/-- `TruthSocialScraper._parse_post` (lines 58-101), parameterized over
the external collaborators: `getText` is BeautifulSoup
`get_text(separator=" ", strip=True)` applied to the content HTML, and
`isoParse` is `datetime.fromisoformat` — `none` meaning it raised
`ValueError`, which the surrounding `except` turns into a dropped post.
A falsy `created_at` (absent or empty) falls back to `utcnow`. -/
def parse_post (getText : String → String) (isoParse : String → Option Nat)
    (nowUtc : Nat) (account : String) (post : TruthPost) :
    Option TruthParsed :=
  let content := truthContent getText post
  if content = "" then none
  else
    match post.created_at with
    | some s =>
      if s = "" then some (truthParsedOf account post content nowUtc)
      else
        match isoParse (s.replace "Z" "+00:00") with
        | some t => some (truthParsedOf account post content t)
        | none => none
    | none => some (truthParsedOf account post content nowUtc)

/-! ## Rev.com transcripts scraper (rev_transcripts.py) -/

/-- A parsed transcript as far as the accumulation loop observes it
(the result of `_scrape_transcript`). -/
structure RevDoc where
  external_id : String
  title : String
  text_content : String
deriving DecidableEq, Repr

/-- The external collaborators of one `scrape_transcripts` run. -/
structure RevEnv where
  listings : Nat → List DocMeta
  details : String → Option RevDoc
  known : String → Bool

/-- Python `url.rstrip("/")`: remove every trailing slash. -/
def pyRstripSlash (s : String) : String :=
  String.mk ((s.toList.reverse.dropWhile (fun c => c = '/')).reverse)

/-- The `rev_`-prefixed external id derived from a listing URL slug
(rev_transcripts.py lines 244-245): the last path component after
stripping trailing slashes. -/
def revExternalId (url : String) : String :=
  "rev_" ++ ((pySplitSlash (pyRstripSlash url)).getLastD "")

/-- The inner loop of `scrape_transcripts` (lines 235-253): stop at the
transcript cap, skip items with an empty url, skip (without fetching)
items whose derived id is already known, otherwise fetch the detail page
(logged in the second component) and accumulate. -/
def rev_scrape_items (env : RevEnv) (maxT : Nat) :
    List DocMeta → List RevDoc → List String → List RevDoc × List String
  | [], docs, fetched => (docs, fetched)
  | m :: rest, docs, fetched =>
    if maxT ≤ docs.length then (docs, fetched)
    else if m.url = "" then rev_scrape_items env maxT rest docs fetched
    else if env.known (revExternalId m.url) then
      rev_scrape_items env maxT rest docs fetched
    else
      match env.details m.url with
      | some doc =>
        rev_scrape_items env maxT rest (docs ++ [doc]) (fetched ++ [m.url])
      | none => rev_scrape_items env maxT rest docs (fetched ++ [m.url])

/-- The outer loop of `scrape_transcripts` (lines 227-255): stop at the
transcript cap, fetch each listing page in turn (logged in the third
component), and terminate the run on an empty listing. -/
def rev_scrape_pages (env : RevEnv) (maxT : Nat) :
    List Nat → List RevDoc → List String → List Nat →
    List RevDoc × List String × List Nat
  | [], docs, fetched, listed => (docs, fetched, listed)
  | p :: ps, docs, fetched, listed =>
    if maxT ≤ docs.length then (docs, fetched, listed)
    else
      let dl := env.listings p
      if dl.isEmpty then (docs, fetched, listed ++ [p])
      else
        let step := rev_scrape_items env maxT dl docs fetched
        rev_scrape_pages env maxT ps step.1 step.2 (listed ++ [p])

/-- `RevTranscriptsScraper.scrape_transcripts` (lines 213-255): pages
`1 .. max_pages`. -/
def scrape_transcripts (env : RevEnv) (maxPages maxT : Nat) :
    List RevDoc × List String × List Nat :=
  rev_scrape_pages env maxT (List.range' 1 maxPages) [] [] []

/-! ## Theorems about the adapters -/

lemma getTextSegments_eq_nil_of_ws (sep : String) (segs : List String)
    (h : ∀ s ∈ segs, pyStrip s = "") : getTextSegments sep segs = "" := by
  have hf : (segs.map pyStrip).filter (fun t => t ≠ "") = [] := by
    simp [List.filter_eq_nil_iff]
    intro t ht
    exact h t ht
  unfold getTextSegments
  rw [hf]
  rfl

/-- A post `_parse_post` returns is the canonical record over the
stripped content (necessarily nonempty) and some timestamp. -/
lemma parse_post_shape (getText : String → String)
    (isoParse : String → Option Nat) (nowUtc : Nat) (account : String)
    (post : TruthPost) (p : TruthParsed)
    (h : parse_post getText isoParse nowUtc account post = some p) :
    truthContent getText post ≠ "" ∧
    ∃ t, p = truthParsedOf account post (truthContent getText post) t := by
  unfold parse_post at h
  by_cases hc : truthContent getText post = ""
  · simp [hc] at h
  · refine ⟨hc, ?_⟩
    simp only [hc, if_false] at h
    cases hca : post.created_at with
    | none =>
      rw [hca] at h
      simp at h
      exact ⟨nowUtc, h.symm⟩
    | some s =>
      rw [hca] at h
      by_cases hs : s = ""
      · simp [hs] at h
        exact ⟨nowUtc, h.symm⟩
      · simp only [hs, if_neg, if_false] at h
        cases hi : isoParse (s.replace "Z" "+00:00") with
        | none => simp [hs, hi] at h
        | some t =>
          simp [hs, hi] at h
          exact ⟨t, h.symm⟩

/-- C10: for every category, the page-0 American Presidency listing URL
appends the president filter with `&` although nothing before it
contains a `?` (only pages greater than 0 receive `?page=N`): the URL
decomposes as a `?`-free prefix followed by
`&field_docs_person_target_id_1=` and the president slug. -/
theorem page_zero_listing_url_ampersand (president : String) (c : String)
    (hc : c ∈ CATEGORIES.map Prod.fst) :
    ∃ pre, scrape_document_list_url c 0 president
        = pre ++ "&field_docs_person_target_id_1=" ++ president ∧
      '?' ∉ pre.toList := by
  simp [CATEGORIES] at hc
  rcases hc with rfl | rfl | rfl | rfl | rfl | rfl
  · exact ⟨"https://www.presidency.ucsb.edu/documents/app-categories/spoken-addresses-and-remarks",
      rfl, by decide⟩
  · exact ⟨"https://www.presidency.ucsb.edu/documents/app-categories/press-conferences",
      rfl, by decide⟩
  · exact ⟨"https://www.presidency.ucsb.edu/documents/app-categories/statements",
      rfl, by decide⟩
  · exact ⟨"https://www.presidency.ucsb.edu/documents/app-categories/executive-orders",
      rfl, by decide⟩
  · exact ⟨"https://www.presidency.ucsb.edu/documents/app-categories/proclamations",
      rfl, by decide⟩
  · exact ⟨"https://www.presidency.ucsb.edu/documents/app-categories/presidential-memoranda",
      rfl, by decide⟩

/-- C10 witness: the default president and the `statements` category. -/
theorem page_zero_listing_url_ampersand_witness :
    ∃ pre, scrape_document_list_url "statements" 0 "donald-trump"
        = pre ++ "&field_docs_person_target_id_1=" ++ "donald-trump" ∧
      '?' ∉ pre.toList :=
  page_zero_listing_url_ampersand "donald-trump" "statements" (by decide)

/-- C5: an item whose mandatory content container is absent, or whose
extracted body text is empty after whitespace stripping, is dropped by
the extraction stage (shown for American Presidency documents and Truth
Social posts, the sources of the claim), and every produced item carries
a nonempty `text_content` — so no entry with empty text reaches the
store. -/
theorem empty_content_rejected
    (strptime : String → String → Option Nat) (now : Nat)
    (president url : String) (page : APPage)
    (getText : String → String) (isoParse : String → Option Nat)
    (nowUtc : Nat) (account : String) (post : TruthPost) :
    (page.contentSegs = none →
      scrape_document strptime now president url page = none) ∧
    (∀ segs, page.contentSegs = some segs → (∀ s ∈ segs, pyStrip s = "") →
      scrape_document strptime now president url page = none) ∧
    (∀ doc, scrape_document strptime now president url page = some doc →
      doc.text_content ≠ "") ∧
    (post.content = "" →
      parse_post getText isoParse nowUtc account post = none) ∧
    (post.content ≠ "" → getText post.content = "" →
      parse_post getText isoParse nowUtc account post = none) ∧
    (∀ p, parse_post getText isoParse nowUtc account post = some p →
      p.text_content ≠ "") := by
  refine ⟨?_, ?_, ?_, ?_, ?_, ?_⟩
  · intro h
    simp [scrape_document, h]
  · intro segs hsegs hws
    simp [scrape_document, hsegs, getTextSegments_eq_nil_of_ws "\n" segs hws]
  · intro doc h
    unfold scrape_document at h
    cases hs : page.contentSegs with
    | none => rw [hs] at h; simp at h
    | some segs =>
      rw [hs] at h
      by_cases ht : getTextSegments "\n" segs = ""
      · simp [ht] at h
      · simp [ht] at h
        rw [← h]
        simpa [apDocOf] using ht
  · intro h
    simp [parse_post, truthContent, h]
  · intro hc hg
    simp [parse_post, truthContent, hc, hg]
  · intro p hp
    obtain ⟨hne, t, rfl⟩ := parse_post_shape getText isoParse nowUtc account post p hp
    simpa [truthParsedOf] using hne

/-- C5 witness: a whitespace-only content container is rejected. -/
theorem empty_content_rejected_witness :
    scrape_document (fun _ _ => none) 0 "donald-trump"
      "https://www.presidency.ucsb.edu/documents/1"
      { titleText := none, dateText := none,
        contentSegs := some ["  ", "\t"], locationText := none } = none :=
  (empty_content_rejected (fun _ _ => none) 0 "donald-trump"
    "https://www.presidency.ucsb.edu/documents/1"
    { titleText := none, dateText := none,
      contentSegs := some ["  ", "\t"], locationText := none }
    (fun s => s) (fun _ => none) 0 "realDonaldTrump"
    { id := none, content := "", created_at := none, reblogs_count := 0,
      favourites_count := 0, replies_count := 0, is_reblog := false }).2.1
    ["  ", "\t"] rfl (by decide)

/-- `datetime.fromisoformat` as exercised by the C4 counterexample: on
the non-ISO string "Jan 5, 2026" (unchanged by the Z-replacement) it
raises `ValueError`, i.e. yields nothing. -/
def fromisoformatCx : String → Option Nat := fun _ => none

/-- The C4 counterexample input: nonempty content, a present but
non-ISO `created_at`. -/
def cxTruthPost : TruthPost :=
  { id := some "114000001", content := "Hello America",
    created_at := some "Jan 5, 2026", reblogs_count := 0,
    favourites_count := 0, replies_count := 0, is_reblog := false }

/-- C4 counterexample: a Truth Social post whose date string parses
under none of the accepted formats is not produced with a fallback
timestamp — `_parse_post` drops it (the `ValueError` of `fromisoformat`
is caught by the `except` that returns nothing), contradicting the
claim for the Truth Social adapter. -/
theorem truth_unparsable_date_drops_post :
    parse_post (fun s => s) fromisoformatCx 1000 "realDonaldTrump"
      cxTruthPost = none := by rfl

/-- C4 (amended): the lenient date fallback holds for the American
Presidency adapter — an item whose date string parses under none of the
accepted formats is still produced, with timestamp "now" and the raw
date string retained in metadata — but the Truth Social adapter falls
back to `utcnow` only when `created_at` is absent or empty: a present
but unparsable `created_at` value drops the post, and Truth Social
metadata never retains a raw date string. -/
theorem date_fallback_amended
    (strptime : String → String → Option Nat) (now : Nat)
    (president url : String) (page : APPage) (segs : List String)
    (hsegs : page.contentSegs = some segs)
    (hne : getTextSegments "\n" segs ≠ "")
    (hdate : ap_parse_date strptime (page.dateText.getD "") = none)
    (getText : String → String) (isoParse : String → Option Nat)
    (nowUtc : Nat) (account : String) (post : TruthPost)
    (hc : post.content ≠ "") (hg : getText post.content ≠ "") :
    (∃ doc, scrape_document strptime now president url page = some doc ∧
      doc.timestamp = now ∧
      ("date_str", MetaValue.str (page.dateText.getD "")) ∈ doc.metadata) ∧
    (post.created_at = none →
      ∃ p, parse_post getText isoParse nowUtc account post = some p ∧
        p.timestamp = nowUtc) ∧
    (∀ s, post.created_at = some s → s ≠ "" →
      isoParse (s.replace "Z" "+00:00") = none →
      parse_post getText isoParse nowUtc account post = none) ∧
    (∀ p, parse_post getText isoParse nowUtc account post = some p →
      ∀ v, ("date_str", v) ∉ p.metadata) := by
  refine ⟨?_, ?_, ?_, ?_⟩
  · refine ⟨apDocOf president url page segs now, ?_, rfl, by simp [apDocOf]⟩
    simp [scrape_document, hsegs, hne, hdate]
  · intro h
    refine ⟨truthParsedOf account post (getText post.content) nowUtc, ?_, rfl⟩
    simp [parse_post, truthContent, hc, hg, h]
  · intro s hs hsne hiso
    simp [parse_post, truthContent, hc, hg, hs, hsne, hiso]
  · intro p hp v
    obtain ⟨hne2, t, rfl⟩ :=
      parse_post_shape getText isoParse nowUtc account post p hp
    simp [truthParsedOf]

/-- C4 witness: an American Presidency page whose date string parses
under no accepted format is produced with the build-time "now" and the
raw string kept in metadata. -/
theorem date_fallback_amended_witness :
    ∃ doc, scrape_document (fun _ _ => none) 42 "donald-trump"
        "https://www.presidency.ucsb.edu/documents/300000"
        { titleText := some "Remarks", dateText := some "Januarie 5",
          contentSegs := some ["Hello"], locationText := none } = some doc ∧
      doc.timestamp = 42 ∧
      ("date_str", MetaValue.str "Januarie 5") ∈ doc.metadata :=
  (date_fallback_amended (fun _ _ => none) 42 "donald-trump"
    "https://www.presidency.ucsb.edu/documents/300000"
    { titleText := some "Remarks", dateText := some "Januarie 5",
      contentSegs := some ["Hello"], locationText := none }
    ["Hello"] rfl (by decide) rfl
    (fun s => s) (fun _ => none) 7 "realDonaldTrump" cxTruthPost
    (by decide) (by decide)).1

/-! ### Batch error handling (save_documents) -/

/-- The C6 counterexample batch: two well-formed documents. -/
def cxDocA : APDoc :=
  { external_id := "app_100", timestamp := 1, source := "speech",
    source_url := "https://www.presidency.ucsb.edu/documents/100",
    title := "First", text_content := "first body", venue := none,
    entry_type := some "speech",
    metadata := [("president", MetaValue.str "donald-trump"),
                 ("date_str", MetaValue.str "January 1, 2026")] }

/-- The C6 counterexample batch: second document. -/
def cxDocB : APDoc :=
  { external_id := "app_200", timestamp := 2, source := "speech",
    source_url := "https://www.presidency.ucsb.edu/documents/200",
    title := "Second", text_content := "second body", venue := none,
    entry_type := some "speech",
    metadata := [("president", MetaValue.str "donald-trump"),
                 ("date_str", MetaValue.str "January 2, 2026")] }

/-- A persistence transport that raises on the first document's insert
and succeeds on every other. -/
def cxFailingInsert (a : InsertArgs) : Except String (Option Nat) :=
  if a.external_id = some "app_100" then
    Except.error "database connection lost"
  else Except.ok (some 7)

/-- C6 counterexample: when the transport raises on the first item of a
two-item batch, `save_documents` propagates the error — the second item
is never attempted (the call log holds only the first item's arguments)
and no aggregate saved-count is reported, contradicting the claim that
the remainder of the batch is still attempted. -/
theorem batch_abort_on_insert_error :
    save_documents cxFailingInsert [cxDocA, cxDocB]
      = ([saveArgsOf cxDocA], Except.error "database connection lost") ∧
    saveArgsOf cxDocB ∉ (save_documents cxFailingInsert [cxDocA, cxDocB]).1 := by
  refine ⟨by rfl, ?_⟩
  intro hmem
  rw [show (save_documents cxFailingInsert [cxDocA, cxDocB]).1
      = [saveArgsOf cxDocA] from rfl] at hmem
  simp [saveArgsOf, cxDocA, cxDocB] at hmem

/-- C6 (amended): a persistence transport error while saving one item
propagates out of `save_documents`: that item's save is aborted, the
remaining items of the batch are not attempted, and no saved-count is
reported; only when every insert call returns without raising are all
items attempted and the aggregate saved-count of the successful inserts
reported. -/
theorem save_documents_error_propagation
    (ins : InsertArgs → Except String (Option Nat)) (doc : APDoc)
    (rest : List APDoc) (e : String)
    (hfail : ins (saveArgsOf doc) = Except.error e)
    (ins2 : InsertArgs → Except String (Option Nat))
    (g : InsertArgs → Option Nat) (docs : List APDoc)
    (hok : ∀ a, ins2 a = Except.ok (g a)) :
    save_documents ins (doc :: rest) = ([saveArgsOf doc], Except.error e) ∧
    save_documents ins2 docs
      = (docs.map saveArgsOf,
         Except.ok ((docs.filter
           (fun d => (g (saveArgsOf d)).isSome)).length)) := by
  constructor
  · rw [save_documents, hfail]
  · induction docs with
    | nil => rfl
    | cons d ds ih =>
      rw [save_documents, hok (saveArgsOf d)]
      rw [List.filter_cons]
      cases hg : (g (saveArgsOf d)).isSome
      · simp [ih, hg]
      · simp [ih, hg, Nat.add_comm]

/-- C6 witness: concrete instances of the propagation and the
all-success count. -/
theorem save_documents_error_propagation_witness :
    save_documents cxFailingInsert (cxDocA :: [cxDocB])
      = ([saveArgsOf cxDocA], Except.error "database connection lost") ∧
    save_documents (fun _ => Except.ok (some 7)) [cxDocB]
      = ([cxDocB].map saveArgsOf,
         Except.ok (([cxDocB].filter
           (fun d => ((fun _ => some 7) (saveArgsOf d)).isSome)).length)) :=
  save_documents_error_propagation cxFailingInsert cxDocA [cxDocB]
    "database connection lost" (by rfl)
    (fun _ => Except.ok (some 7)) (fun _ => some 7) [cxDocB]
    (fun a => rfl)

/-! ### Dedup short-circuit and run caps -/

lemma scrape_category_items_fetched_prefixes (env : APEnv) (et : String)
    (maxDocs : Nat) (metas : List DocMeta) (docs : List APDoc)
    (fetched : List String) :
    fetched <+: (scrape_category_items env et maxDocs metas docs fetched).2 := by
  induction metas generalizing docs fetched with
  | nil => exact List.prefix_refl _
  | cons m rest ih =>
    rw [scrape_category_items]
    by_cases hc : maxDocs ≤ docs.length
    · simp [hc]
    · simp only [hc, if_false]
      by_cases hs : apSkipItem env m.url
      · simp only [hs, if_true]
        exact ih docs fetched
      · simp only [hs, if_false]
        cases hd : env.details m.url with
        | some doc =>
          exact (List.prefix_append fetched [m.url]).trans (ih _ _)
        | none =>
          exact (List.prefix_append fetched [m.url]).trans (ih _ _)

/-- C7: in the accumulation loops, an item whose derivable external id is
already in the store is skipped before any detail fetch (processing it
leaves the fetch log and the accumulator exactly as if the item were not
listed), both for the American Presidency and the Rev adapters; and an
American Presidency item whose id derivation fails (no `/documents/<digits>`
match) undergoes no pre-fetch check and its URL is fetched anyway. -/
theorem dedup_short_circuit
    (env : APEnv) (et : String) (maxDocs : Nat) (m : DocMeta)
    (rest : List DocMeta) (docs : List APDoc) (fetched : List String)
    (hroom : docs.length < maxDocs)
    (renv : RevEnv) (maxT : Nat) (m2 : DocMeta) (rest2 : List DocMeta)
    (docs2 : List RevDoc) (fetched2 : List String)
    (hroom2 : docs2.length < maxT) :
    (∀ did, searchDocumentsId m.url.toList = some did →
      env.known ("app_" ++ did) = true →
      scrape_category_items env et maxDocs (m :: rest) docs fetched
        = scrape_category_items env et maxDocs rest docs fetched) ∧
    (searchDocumentsId m.url.toList = none →
      m.url ∈ (scrape_category_items env et maxDocs (m :: rest) docs fetched).2) ∧
    (m2.url ≠ "" → renv.known (revExternalId m2.url) = true →
      rev_scrape_items renv maxT (m2 :: rest2) docs2 fetched2
        = rev_scrape_items renv maxT rest2 docs2 fetched2) := by
  refine ⟨?_, ?_, ?_⟩
  · intro did hdid hknown
    rw [scrape_category_items]
    have hskip : apSkipItem env m.url = true := by
      unfold apSkipItem
      rw [hdid]
      exact hknown
    simp [Nat.not_le.mpr hroom, hskip]
  · intro hnone
    rw [scrape_category_items]
    have hskip : apSkipItem env m.url = false := by
      unfold apSkipItem
      rw [hnone]
    simp only [Nat.not_le.mpr hroom, if_false, hskip]
    cases hd : env.details m.url with
    | some doc =>
      have hp := scrape_category_items_fetched_prefixes env et maxDocs rest
        (docs ++ [{ doc with entry_type := some et }]) (fetched ++ [m.url])
      exact hp.subset (by simp)
    | none =>
      have hp := scrape_category_items_fetched_prefixes env et maxDocs rest
        docs (fetched ++ [m.url])
      exact hp.subset (by simp)
  · intro hurl hknown
    rw [rev_scrape_items]
    simp [Nat.not_le.mpr hroom2, hurl, hknown]

/-- C7 witness: a concrete known item is processed without a fetch, a
concrete underivable item is fetched, and a concrete known Rev item is
processed without a fetch. -/
theorem dedup_short_circuit_witness :
    (scrape_category_items
        { listings := fun _ => [],
          details := fun _ => none,
          known := fun s => s == "app_123" }
        "speech" 10
        [{ url := "https://www.presidency.ucsb.edu/documents/123",
           title := "T", date_str := "" }] [] []
      = scrape_category_items
        { listings := fun _ => [],
          details := fun _ => none,
          known := fun s => s == "app_123" }
        "speech" 10 [] [] []) ∧
    ("https://www.presidency.ucsb.edu/people/other"
      ∈ (scrape_category_items
        { listings := fun _ => [],
          details := fun _ => none,
          known := fun s => s == "app_123" }
        "speech" 10
        [{ url := "https://www.presidency.ucsb.edu/people/other",
           title := "U", date_str := "" }] [] []).2) ∧
    (rev_scrape_items
        { listings := fun _ => [],
          details := fun _ => none,
          known := fun s => s == "rev_known-slug" }
        10
        [{ url := "https://www.rev.com/blog/transcripts/known-slug",
           title := "V", date_str := "" }] [] []
      = rev_scrape_items
        { listings := fun _ => [],
          details := fun _ => none,
          known := fun s => s == "rev_known-slug" }
        10 [] [] []) := by
  refine ⟨?_, ?_, ?_⟩
  · exact (dedup_short_circuit
      { listings := fun _ => [], details := fun _ => none,
        known := fun s => s == "app_123" } "speech" 10
      { url := "https://www.presidency.ucsb.edu/documents/123",
        title := "T", date_str := "" } [] [] [] (by decide)
      { listings := fun _ => [], details := fun _ => none,
        known := fun _ => false } 10
      { url := "", title := "", date_str := "" } [] [] [] (by decide)).1
      "123" (by decide) (by decide)
  · exact (dedup_short_circuit
      { listings := fun _ => [], details := fun _ => none,
        known := fun s => s == "app_123" } "speech" 10
      { url := "https://www.presidency.ucsb.edu/people/other",
        title := "U", date_str := "" } [] [] [] (by decide)
      { listings := fun _ => [], details := fun _ => none,
        known := fun _ => false } 10
      { url := "", title := "", date_str := "" } [] [] [] (by decide)).2.1
      (by decide)
  · exact (dedup_short_circuit
      { listings := fun _ => [], details := fun _ => none,
        known := fun _ => false } "speech" 10
      { url := "", title := "", date_str := "" } [] [] [] (by decide)
      { listings := fun _ => [], details := fun _ => none,
        known := fun s => s == "rev_known-slug" } 10
      { url := "https://www.rev.com/blog/transcripts/known-slug",
        title := "V", date_str := "" } [] [] [] (by decide)).2.2
      (by decide) (by decide)

lemma scrape_category_items_docs_le (env : APEnv) (et : String)
    (maxDocs : Nat) (metas : List DocMeta) (docs : List APDoc)
    (fetched : List String) (h : docs.length ≤ maxDocs) :
    (scrape_category_items env et maxDocs metas docs fetched).1.length
      ≤ maxDocs := by
  induction metas generalizing docs fetched with
  | nil => simpa [scrape_category_items] using h
  | cons m rest ih =>
    rw [scrape_category_items]
    by_cases hc : maxDocs ≤ docs.length
    · simpa [hc] using h
    · simp only [hc, if_false]
      by_cases hs : apSkipItem env m.url
      · simp only [hs, if_true]
        exact ih docs fetched h
      · simp only [hs, if_false]
        cases hd : env.details m.url with
        | some doc =>
          exact ih (docs ++ [{ doc with entry_type := some et }])
            (fetched ++ [m.url]) (by simp; omega)
        | none => exact ih docs (fetched ++ [m.url]) h

lemma scrape_category_pages_docs_le (env : APEnv) (et : String)
    (maxDocs : Nat) (pages : List Nat) (docs : List APDoc)
    (fetched : List String) (listed : List Nat) (h : docs.length ≤ maxDocs) :
    (scrape_category_pages env et maxDocs pages docs fetched listed).1.length
      ≤ maxDocs := by
  induction pages generalizing docs fetched listed with
  | nil => simpa [scrape_category_pages] using h
  | cons p ps ih =>
    rw [scrape_category_pages]
    by_cases hc : maxDocs ≤ docs.length
    · simpa [hc] using h
    · simp only [hc, if_false]
      by_cases he : (env.listings p).isEmpty
      · simpa [he] using h
      · simp only [he, if_false]
        exact ih _ _ _ (scrape_category_items_docs_le env et maxDocs _ _ _ h)

lemma scrape_category_pages_listed_le (env : APEnv) (et : String)
    (maxDocs : Nat) (pages : List Nat) (docs : List APDoc)
    (fetched : List String) (listed : List Nat) :
    (scrape_category_pages env et maxDocs pages docs fetched listed).2.2.length
      ≤ listed.length + pages.length := by
  induction pages generalizing docs fetched listed with
  | nil => simp [scrape_category_pages]
  | cons p ps ih =>
    rw [scrape_category_pages]
    by_cases hc : maxDocs ≤ docs.length
    · simp [hc]
    · simp only [hc, if_false]
      by_cases he : (env.listings p).isEmpty
      · simp [he]
      · simp only [he, if_false]
        calc (scrape_category_pages env et maxDocs ps _ _ (listed ++ [p])).2.2.length
            ≤ (listed ++ [p]).length + ps.length := ih _ _ _
          _ = listed.length + (p :: ps).length := by simp; omega

lemma rev_scrape_items_docs_le (env : RevEnv) (maxT : Nat)
    (metas : List DocMeta) (docs : List RevDoc) (fetched : List String)
    (h : docs.length ≤ maxT) :
    (rev_scrape_items env maxT metas docs fetched).1.length ≤ maxT := by
  induction metas generalizing docs fetched with
  | nil => simpa [rev_scrape_items] using h
  | cons m rest ih =>
    rw [rev_scrape_items]
    by_cases hc : maxT ≤ docs.length
    · simpa [hc] using h
    · simp only [hc, if_false]
      by_cases hu : m.url = ""
      · simp only [hu, if_true]
        exact ih docs fetched h
      · simp only [hu, if_false]
        by_cases hk : env.known (revExternalId m.url)
        · simp only [hk, if_true]
          exact ih docs fetched h
        · simp only [hk, if_false]
          cases hd : env.details m.url with
          | some doc =>
            exact ih (docs ++ [doc]) (fetched ++ [m.url]) (by simp; omega)
          | none => exact ih docs (fetched ++ [m.url]) h

lemma rev_scrape_pages_docs_le (env : RevEnv) (maxT : Nat)
    (pages : List Nat) (docs : List RevDoc) (fetched : List String)
    (listed : List Nat) (h : docs.length ≤ maxT) :
    (rev_scrape_pages env maxT pages docs fetched listed).1.length ≤ maxT := by
  induction pages generalizing docs fetched listed with
  | nil => simpa [rev_scrape_pages] using h
  | cons p ps ih =>
    rw [rev_scrape_pages]
    by_cases hc : maxT ≤ docs.length
    · simpa [hc] using h
    · simp only [hc, if_false]
      by_cases he : (env.listings p).isEmpty
      · simpa [he] using h
      · simp only [he, if_false]
        exact ih _ _ _ (rev_scrape_items_docs_le env maxT _ _ _ h)

lemma rev_scrape_pages_listed_le (env : RevEnv) (maxT : Nat)
    (pages : List Nat) (docs : List RevDoc) (fetched : List String)
    (listed : List Nat) :
    (rev_scrape_pages env maxT pages docs fetched listed).2.2.length
      ≤ listed.length + pages.length := by
  induction pages generalizing docs fetched listed with
  | nil => simp [rev_scrape_pages]
  | cons p ps ih =>
    rw [rev_scrape_pages]
    by_cases hc : maxT ≤ docs.length
    · simp [hc]
    · simp only [hc, if_false]
      by_cases he : (env.listings p).isEmpty
      · simp [he]
      · simp only [he, if_false]
        calc (rev_scrape_pages env maxT ps _ _ (listed ++ [p])).2.2.length
            ≤ (listed ++ [p]).length + ps.length := ih _ _ _
          _ = listed.length + (p :: ps).length := by simp; omega

/-- C8: an adapter run fetches at most the configured maximum number of
listing pages, collects at most the configured maximum number of items,
and an empty listing page terminates the run with the items collected so
far — shown for `scrape_category` (American Presidency) and
`scrape_transcripts` (Rev). -/
theorem run_caps_and_empty_termination
    (env : APEnv) (category : String) (maxPages maxDocs : Nat)
    (et : String) (p : Nat) (ps : List Nat) (docs : List APDoc)
    (fetched : List String) (listed : List Nat)
    (hroom : docs.length < maxDocs) (hempty : env.listings p = [])
    (renv : RevEnv) (maxPages2 maxT : Nat)
    (q : Nat) (qs : List Nat) (docs2 : List RevDoc)
    (fetched2 : List String) (listed2 : List Nat)
    (hroom2 : docs2.length < maxT) (hempty2 : renv.listings q = []) :
    (scrape_category env category maxPages maxDocs).1.length ≤ maxDocs ∧
    (scrape_category env category maxPages maxDocs).2.2.length ≤ maxPages ∧
    scrape_category_pages env et maxDocs (p :: ps) docs fetched listed
      = (docs, fetched, listed ++ [p]) ∧
    (scrape_transcripts renv maxPages2 maxT).1.length ≤ maxT ∧
    (scrape_transcripts renv maxPages2 maxT).2.2.length ≤ maxPages2 ∧
    rev_scrape_pages renv maxT (q :: qs) docs2 fetched2 listed2
      = (docs2, fetched2, listed2 ++ [q]) := by
  refine ⟨?_, ?_, ?_, ?_, ?_, ?_⟩
  · exact scrape_category_pages_docs_le env _ maxDocs _ [] [] []
      (Nat.zero_le _)
  · simpa using scrape_category_pages_listed_le env
      ((CATEGORIES.lookup category).getD "speech") maxDocs
      (List.range maxPages) [] [] []
  · rw [scrape_category_pages]
    simp [Nat.not_le.mpr hroom, hempty]
  · exact rev_scrape_pages_docs_le renv maxT _ [] [] [] (Nat.zero_le _)
  · simpa using rev_scrape_pages_listed_le renv maxT
      (List.range' 1 maxPages2) [] [] []
  · rw [rev_scrape_pages]
    simp [Nat.not_le.mpr hroom2, hempty2]

/-- C8 witness: a run over an environment whose listings are all empty
respects both caps and terminates on the first (empty) page. -/
theorem run_caps_and_empty_termination_witness :
    (scrape_category
        { listings := fun _ => [], details := fun _ => none,
          known := fun _ => false } "statements" 5 100).1.length ≤ 100 ∧
    (scrape_category
        { listings := fun _ => [], details := fun _ => none,
          known := fun _ => false } "statements" 5 100).2.2.length ≤ 5 ∧
    scrape_category_pages
        { listings := fun _ => [], details := fun _ => none,
          known := fun _ => false } "statement" 100 [0, 1] [] [] []
      = ([], [], [] ++ [0]) ∧
    (scrape_transcripts
        { listings := fun _ => [], details := fun _ => none,
          known := fun _ => false } 5 50).1.length ≤ 50 ∧
    (scrape_transcripts
        { listings := fun _ => [], details := fun _ => none,
          known := fun _ => false } 5 50).2.2.length ≤ 5 ∧
    rev_scrape_pages
        { listings := fun _ => [], details := fun _ => none,
          known := fun _ => false } 50 [1, 2] [] [] []
      = ([], [], [] ++ [1]) :=
  run_caps_and_empty_termination
    { listings := fun _ => [], details := fun _ => none,
      known := fun _ => false } "statements" 5 100
    "statement" 0 [1] [] [] [] (by decide) rfl
    { listings := fun _ => [], details := fun _ => none,
      known := fun _ => false } 5 50
    1 [2] [] [] [] (by decide) rfl

end Firehose
